import Mathlib

/-!
Verification of the price-prediction pipeline
(`src/services/analytics/src/ml/price_prediction.py`).

Floating-point arithmetic is embedded over `ℚ`.  The Redis client is embedded
as an explicit association-list store (`Store`).  The opaque sequence-model
engine (tensorflow) is embedded as explicit parameters: the outcome of `fit`
(`Option (ℚ × ℚ)`, the final loss / validation-loss pair, `none` meaning the
call raised) and the scalar output of `predict`.  Nondeterministic timestamps
(`datetime.now().isoformat()`) are passed in as a `now : String` parameter.
-/

/-- A raw order-book summary record as parsed from Redis
(fields read in `fetch_training_data`, lines 82-87). -/
structure OrderBookRecord where
  timestamp : Int
  price : ℚ
  volume : ℚ
  bid_price : ℚ
  ask_price : ℚ
  bid_volume : ℚ
  ask_volume : ℚ
  deriving Repr, DecidableEq

/-- The derived per-record feature vector (lines 81-88). -/
structure FeatureRow where
  price : ℚ
  volume : ℚ
  bid_ask_spread : ℚ
  mid_price : ℚ
  imbalance : ℚ
  deriving Repr, DecidableEq

/-- The fixed feature-column ordering used in `prepare_data` (line 99) and
`predict_next` (line 166): price, volume, bid_ask_spread, mid_price, imbalance. -/
def FeatureRow.toVec (f : FeatureRow) : List ℚ :=
  [f.price, f.volume, f.bid_ask_spread, f.mid_price, f.imbalance]

/-- One iteration of the parsing loop (lines 80-88).  The imbalance feature
divides by `bid_volume + ask_volume` with no guard; in Python a zero
denominator raises `ZeroDivisionError`, which escapes the loop and is caught
only by the outer `except` of `fetch_training_data`.  `none` embeds that
raised exception. -/
def parseRecord (r : OrderBookRecord) : Option FeatureRow :=
  if r.bid_volume + r.ask_volume = 0 then none
  else
    some { price := r.price
           volume := r.volume
           bid_ask_spread := r.ask_price - r.bid_price
           mid_price := (r.ask_price + r.bid_price) / 2
           imbalance := r.bid_volume / (r.bid_volume + r.ask_volume) }

namespace PricePredictionModel

/-- Embedding of `fetch_training_data` (lines 55-94): the Redis range query is
embedded as
the already-retrieved list `raw`.  An empty result returns `None` (line 73-75);
an exception anywhere in the parsing loop is caught by the outer handler and
also yields `None` (lines 92-94), embedded by `List.mapM`. -/
def fetch_training_data (raw : List OrderBookRecord) : Option (List FeatureRow) :=
  if raw = [] then none
  else raw.mapM parseRecord

end PricePredictionModel

/-!  The scaler.  `MinMaxScaler` is an external collaborator (sklearn), not
code of this repository; it is embedded following spec section 4.2
(Normalizer): `fit` stores per-feature min/max of the fitted matrix, scaling
maps `v` to `(v - min) / (max - min)` with a zero-range feature scaling to 0,
and the inverse mapping for the price column is `v * (max - min) + min`. -/

/-- Minimum of a list of rationals (0 for the empty list; the scaler is never
fitted on an empty matrix on the paths verified here). -/
def listMin : List ℚ → ℚ
  | [] => 0
  | x :: xs => xs.foldl min x

/-- Maximum of a list of rationals. -/
def listMax : List ℚ → ℚ
  | [] => 0
  | x :: xs => xs.foldl max x

/-- Column `j` of a row-major matrix. -/
def column (data : List (List ℚ)) (j : ℕ) : List ℚ :=
  data.map (fun r => r.getD j 0)

/-- The fitted scaler state: per-feature `(min, max)` over the 5 feature
columns of the fitted matrix. -/
def fitParams (data : List (List ℚ)) : List (ℚ × ℚ) :=
  (List.range 5).map (fun j => (listMin (column data j), listMax (column data j)))

/-- Min-max scaling of one value given the column's `(min, max)`. -/
def scaleVal (p : ℚ × ℚ) (v : ℚ) : ℚ :=
  if p.2 = p.1 then 0 else (v - p.1) / (p.2 - p.1)

/-- Min-max scaling of one feature row. -/
def scaleRow (ps : List (ℚ × ℚ)) (row : List ℚ) : List ℚ :=
  List.zipWith scaleVal ps row

/-- Embedding of `scaler.inverse_transform` applied to the padded prediction
row, keeping
only the price column (column 0), as in lines 174-176. -/
def inverseTransformPrice (ps : List (ℚ × ℚ)) (v : ℚ) : ℚ :=
  let p := ps.getD 0 (0, 1)
  v * (p.2 - p.1) + p.1

/-- The windowing loop of `prepare_data` (lines 104-109):
`for i in range(S, len(scaled_data)): X.append(scaled_data[i-S:i]);
y.append(scaled_data[i, 0])`. -/
def makeSequences (S : ℕ) (scaled_data : List (List ℚ)) :
    List (List (List ℚ)) × List ℚ :=
  let idx := List.range' S (scaled_data.length - S)
  (idx.map (fun i => (scaled_data.drop (i - S)).take S),
   idx.map (fun i => (scaled_data.getD i []).getD 0 0))

/-- The mutable state of a `PricePredictionModel` instance that the verified
operations read or write: the scaler (`none` = never fitted) and
`sequence_length`.  The model parameters themselves live in the opaque
engine and never influence the verified control flow. -/
structure ModelState where
  scaler : Option (List (ℚ × ℚ))
  sequence_length : ℕ
  deriving Repr, DecidableEq

/-- Training metrics as assembled at lines 136-143 (`loss` and `val_loss` are
the engine history's final entries, passed in as parameters). -/
structure TrainingMetrics where
  venue : String
  symbol : String
  loss : ℚ
  val_loss : ℚ
  timestamp : String
  data_points : ℕ
  deriving Repr, DecidableEq

/-- The prediction record assembled at lines 182-192. -/
structure Prediction where
  venue : String
  symbol : String
  current_price : ℚ
  predicted_price : ℚ
  price_change : ℚ
  percent_change : ℚ
  prediction_time : String
  time_horizon_minutes : ℕ
  confidence : String
  deriving Repr, DecidableEq

/-- A value stored in Redis (the serialized JSON payloads are embedded by the
records themselves; `json.dumps` on distinct records yields distinct strings
for these field sets, so the embedding keeps the records). -/
inductive StoreVal where
  | metrics (m : TrainingMetrics)
  | pred (p : Prediction)
  deriving Repr, DecidableEq

/-- The Redis store: key-value pairs and per-key time-to-live (seconds). -/
structure Store where
  vals : List (String × StoreVal)
  ttls : List (String × ℕ)
  deriving Repr, DecidableEq

/-- Redis `SET`: replaces the value and discards any time-to-live on the key. -/
def Store.set (s : Store) (k : String) (v : StoreVal) : Store :=
  { vals := (k, v) :: s.vals.filter (fun kv => kv.1 != k)
    ttls := s.ttls.filter (fun kt => kt.1 != k) }

/-- Redis `EXPIRE key n`. -/
def Store.expire (s : Store) (k : String) (n : ℕ) : Store :=
  { s with ttls := (k, n) :: s.ttls.filter (fun kt => kt.1 != k) }

/-- Redis `GET`. -/
def Store.get (s : Store) (k : String) : Option StoreVal :=
  s.vals.lookup k

/-- Redis `TTL` (in seconds; `none` = no expiry set). -/
def Store.ttl (s : Store) (k : String) : Option ℕ :=
  s.ttls.lookup k

namespace PricePredictionModel

/-- Embedding of `_calculate_confidence` (lines 205-215). -/
def calculate_confidence (percent_change : ℚ) : String :=
  let abs_change := |percent_change|
  if abs_change > 5 then "low"
  else if abs_change > 2 then "medium"
  else "high"

/-- Embedding of `prepare_data` (lines 96-109): selects the 5 feature columns,
re-fits the
scaler on them (`self.scaler.fit_transform`, a mutation of the instance's
scaler state), and windows the scaled matrix.  Returns the mutated state
together with `(X, y)`. -/
def prepare_data (st : ModelState) (df : List FeatureRow) :
    ModelState × List (List (List ℚ)) × List ℚ :=
  let data := df.map FeatureRow.toVec
  let ps := fitParams data
  let scaled_data := data.map (scaleRow ps)
  let Xy := makeSequences st.sequence_length scaled_data
  ({ st with scaler := some ps }, Xy.1, Xy.2)

/-- Embedding of `train` (lines 111-153).  `fitOutcome` embeds the opaque engine call
`self.model.fit` (line 127): `some (loss, val_loss)` is a successful fit with
those final history entries, `none` a fit that raised (caught at lines
151-153).  The 80/20 split (lines 121-123) only feeds the opaque engine and
does not influence any verified output. -/
def train (st : ModelState) (store : Store) (raw : List OrderBookRecord)
    (fitOutcome : Option (ℚ × ℚ)) (now : String) (venue symbol : String) :
    Bool × ModelState × Store :=
  match fetch_training_data raw with
  | none => (false, st, store)
  | some df =>
    if df.length < st.sequence_length + 10 then
      (false, st, store)
    else
      let pd := prepare_data st df
      let st' := pd.1
      let X := pd.2.1
      match fitOutcome with
      | none => (false, st', store)
      | some lv =>
        let metrics_key := "ml:training:metrics:" ++ venue.toLower ++ ":" ++ symbol.toLower
        let tm : TrainingMetrics :=
          { venue := venue, symbol := symbol, loss := lv.1, val_loss := lv.2,
            timestamp := now, data_points := X.length }
        (true, st', store.set metrics_key (StoreVal.metrics tm))

/-- Embedding of `predict_next` (lines 155-203).  `engineOut` embeds the opaque
`self.model.predict` output (the single scaled value `predicted_scaled[0][0]`).
`recent_data.tail(S)` is `List.drop (length - S)`; `iloc[-1]` on an empty
frame raises, caught by the outer handler (`getLast? = none` branch); calling
`scaler.transform` before any fit raises `NotFittedError`, also caught
(`st.scaler = none` branch). -/
def predict_next (st : ModelState) (store : Store) (raw : List OrderBookRecord)
    (engineOut : ℚ) (now : String) (venue symbol : String)
    (time_horizon_minutes : ℕ) : Option Prediction × Store :=
  match fetch_training_data raw with
  | none => (none, store)
  | some recent_data =>
    if recent_data.length < st.sequence_length then (none, store)
    else
      let recent := recent_data.drop (recent_data.length - st.sequence_length)
      let data := recent.map FeatureRow.toVec
      match st.scaler with
      | none => (none, store)
      | some ps =>
        let scaled_data := data.map (scaleRow ps)
        let predicted_price := inverseTransformPrice ps engineOut
        match recent.getLast? with
        | none => (none, store)
        | some lastRow =>
          let current_price := lastRow.price
          let price_change := predicted_price - current_price
          let percent_change := price_change / current_price * 100
          let p : Prediction :=
            { venue := venue, symbol := symbol,
              current_price := current_price, predicted_price := predicted_price,
              price_change := price_change, percent_change := percent_change,
              prediction_time := now, time_horizon_minutes := time_horizon_minutes,
              confidence := calculate_confidence percent_change }
          let prediction_key := "ml:predictions:" ++ venue.toLower ++ ":" ++ symbol.toLower
          let store2 := (store.set prediction_key (StoreVal.pred p)).expire
            prediction_key (60 * time_horizon_minutes)
          (some p, store2)

end PricePredictionModel

/-!  Construction (`__init__`, lines 13-18).  Python object construction is
embedded attribute-by-attribute in assignment order: an attribute read before
its assignment raises `AttributeError`.  In the source, line 17 assigns
`self.model` (calling `_build_model` or `_load_model`) and only line 18
assigns `self.sequence_length`, while `_build_model` (line 23) reads
`self.sequence_length` for the LSTM input shape. -/

/-- Python exceptions escaping construction. -/
inductive PyError where
  | attributeError
  deriving Repr, DecidableEq

/-- The engine-side model object, opaque except for the input shape that
`_build_model` derives from `self.sequence_length`. -/
structure KerasModel where
  input_seq_len : ℕ
  deriving Repr, DecidableEq

namespace PricePredictionModel

/-- Embedding of `_build_model` (lines 20-33): reads `self.sequence_length`
(line 23,
`input_shape=(self.sequence_length, 5)`); the parameter is that attribute's
current state, `none` when it has not been assigned yet, in which case the
read raises `AttributeError`. -/
def build_model (sequence_length : Option ℕ) : Except PyError KerasModel :=
  match sequence_length with
  | none => Except.error PyError.attributeError
  | some s => Except.ok { input_seq_len := s }

/-- Embedding of `_load_model` (lines 35-43): `loaded = some m` embeds a disk
load that
returned `m`; `loaded = none` embeds a load that raised, upon which the
handler falls back to `_build_model` (line 43). -/
def load_model (sequence_length : Option ℕ) (loaded : Option KerasModel) :
    Except PyError KerasModel :=
  match loaded with
  | some m => Except.ok m
  | none => build_model sequence_length

/-- A fully constructed instance (the fields `__init__` must have assigned
for construction to return). -/
structure Constructed where
  model : KerasModel
  sequence_length : ℕ
  deriving Repr, DecidableEq

/-- Embedding of `__init__` (lines 13-18): assigns logger, redis_client,
scaler, then
`self.model` (line 17, via `_build_model` when `model_path is None`, else via
`_load_model`), then `self.sequence_length = 60` (line 18).  At the moment
line 17 runs, `self.sequence_length` is unassigned, so `none` is what
`_build_model` / `_load_model` observe for it. -/
def init (model_path : Option String) (loaded : Option KerasModel) :
    Except PyError Constructed :=
  let seq_at_line_17 : Option ℕ := none
  match model_path with
  | none =>
    match build_model seq_at_line_17 with
    | Except.error e => Except.error e
    | Except.ok m => Except.ok { model := m, sequence_length := 60 }
  | some _ =>
    match load_model seq_at_line_17 loaded with
    | Except.error e => Except.error e
    | Except.ok m => Except.ok { model := m, sequence_length := 60 }

end PricePredictionModel

/-!  Generic helper lemmas about the store and about lists. -/

/-- Looking a key up after filtering that key out of an association list is
the same as looking it up in the original when the keys differ. -/
theorem lookup_filter_ne {α : Type} (l : List (String × α)) (k key : String)
    (h : k ≠ key) :
    (l.filter (fun x => x.1 != key)).lookup k = l.lookup k := by
  induction l with
  | nil => rfl
  | cons a tl ih =>
    by_cases hk : a.1 = key
    · have hf : (a.1 != key) = false := by simp [hk]
      simp only [List.filter_cons, hf, ih]
      have hkk : (k == a.1) = false := by simp [hk, h]
      simp only [List.lookup, hkk]
      exact ih
    · have ht : (a.1 != key) = true := by simp [hk]
      simp only [List.filter_cons, ht]
      by_cases hka : k = a.1
      · simp [List.lookup, hka]
      · have hne : (k == a.1) = false := by simp [hka]
        simp [List.lookup, hne, ih]

/-- Reading key `k` right after `SET k v`. -/
theorem Store.get_set_self (s : Store) (k : String) (v : StoreVal) :
    (s.set k v).get k = some v := by
  simp [Store.set, Store.get, List.lookup]

/-- The `EXPIRE` command leaves the values untouched. -/
theorem Store.get_expire (s : Store) (k k' : String) (n : ℕ) :
    (s.expire k n).get k' = s.get k' := by
  simp [Store.expire, Store.get]

/-- The time-to-live of key `k` right after `EXPIRE k n`. -/
theorem Store.ttl_expire_self (s : Store) (k : String) (n : ℕ) :
    (s.expire k n).ttl k = some n := by
  simp [Store.expire, Store.ttl, List.lookup]

/-- Reading a different key after `SET`. -/
theorem Store.get_set_other (s : Store) (k k' : String) (v : StoreVal)
    (h : k' ≠ k) : (s.set k v).get k' = s.get k' := by
  have hne : (k' == k) = false := by simp [h]
  simp [Store.set, Store.get, List.lookup, hne, lookup_filter_ne _ _ _ h]

/-- The time-to-live of a different key after `SET` (SET discards only that
key's own time-to-live). -/
theorem Store.ttl_set_other (s : Store) (k k' : String) (v : StoreVal)
    (h : k' ≠ k) : (s.set k v).ttl k' = s.ttl k' := by
  simp [Store.set, Store.ttl, lookup_filter_ne _ _ _ h]

/-- The time-to-live of a different key after `EXPIRE`. -/
theorem Store.ttl_expire_other (s : Store) (k k' : String) (n : ℕ)
    (h : k' ≠ k) : (s.expire k n).ttl k' = s.ttl k' := by
  have hne : (k' == k) = false := by simp [h]
  simp [Store.expire, Store.ttl, List.lookup, hne, lookup_filter_ne _ _ _ h]

/-- The last element of a suffix obtained by `drop` is the last element of
the whole list, whenever the suffix is nonempty. -/
theorem getLast?_of_drop {α : Type} :
    ∀ (l : List α) (n : ℕ) (x : α), (l.drop n).getLast? = some x →
      l.getLast? = some x := by
  intro l
  induction l with
  | nil => intro n x h; simp at h
  | cons a tl ih =>
    intro n x h
    match n with
    | 0 => simpa using h
    | n + 1 =>
      have htl : tl.getLast? = some x := ih n x h
      match tl, htl with
      | b :: tl2, htl => rw [List.getLast?_cons_cons]; exact htl

/-- Characterization of a successful `predict_next` call: every field of the
returned record and the final store, in terms of the fetched data, the fitted
scaler and the engine output. -/
theorem predict_next_success_spec
    (st : ModelState) (store : Store) (raw : List OrderBookRecord)
    (engineOut : ℚ) (now venue symbol : String) (th : ℕ)
    (p : Prediction) (s2 : Store)
    (hp : PricePredictionModel.predict_next st store raw engineOut now venue symbol th
        = (some p, s2)) :
    ∃ recent_data ps lastRow,
      PricePredictionModel.fetch_training_data raw = some recent_data ∧
      ¬ recent_data.length < st.sequence_length ∧
      st.scaler = some ps ∧
      (recent_data.drop (recent_data.length - st.sequence_length)).getLast? = some lastRow ∧
      p = { venue := venue, symbol := symbol, current_price := lastRow.price,
            predicted_price := inverseTransformPrice ps engineOut,
            price_change := inverseTransformPrice ps engineOut - lastRow.price,
            percent_change := (inverseTransformPrice ps engineOut - lastRow.price) / lastRow.price * 100,
            prediction_time := now, time_horizon_minutes := th,
            confidence := PricePredictionModel.calculate_confidence
              ((inverseTransformPrice ps engineOut - lastRow.price) / lastRow.price * 100) } ∧
      s2 = (store.set ("ml:predictions:" ++ venue.toLower ++ ":" ++ symbol.toLower)
              (StoreVal.pred p)).expire
              ("ml:predictions:" ++ venue.toLower ++ ":" ++ symbol.toLower) (60 * th) := by
  unfold PricePredictionModel.predict_next at hp
  split at hp
  · simp at hp
  · rename_i recent_data hf
    split at hp
    · simp at hp
    · rename_i hlen
      split at hp
      · simp at hp
      · rename_i ps hsc
        cases hlast : (List.drop (recent_data.length - st.sequence_length)
            recent_data).getLast? with
        | none => simp [hlast] at hp
        | some lastRow =>
          simp only [hlast] at hp
          rw [Prod.mk.injEq] at hp
          obtain ⟨hp1, hp2⟩ := hp
          rw [Option.some_inj] at hp1
          refine ⟨recent_data, ps, lastRow, hf, hlen, hsc, hlast, hp1.symm, ?_⟩
          rw [← hp1]
          exact hp2.symm

/-!  Claim theorems. -/

/-- C1: the claim states that construction with no model path, or with a path
whose load fails, completes without raising and leaves the instance Ready.
The code contradicts it: `_build_model` reads `self.sequence_length` (line 23)
but `__init__` assigns `self.sequence_length` (line 18) only after assigning
`self.model` (line 17), so both constructions raise `AttributeError`. -/
theorem C1_construction_raises_attribute_error :
    PricePredictionModel.init none none = Except.error PyError.attributeError ∧
    PricePredictionModel.init (some "model.h5") none
      = Except.error PyError.attributeError :=
  ⟨rfl, rfl⟩

/-- C3 counterexample: the claim says `percent_change` of exactly 2.0 resolves
to `medium`; the code's strict `abs_change > 2.0` test sends 2.0 to the `else`
branch, i.e. `high`. -/
theorem C3_counterexample_two_is_high :
    PricePredictionModel.calculate_confidence 2 = "high" ∧
    PricePredictionModel.calculate_confidence 2 ≠ "medium" := by
  constructor
  · rfl
  · decide

/-- C3 (amended): magnitudes strictly greater than 5.0 resolve to `low`;
exactly 5.0 resolves to `medium`; exactly 2.0 resolves to `high` (not
`medium`: the 2.0 boundary falls to the `else` branch); 0.0 resolves to
`high`. -/
theorem C3_confidence_boundaries :
    (∀ pc : ℚ, 5 < |pc| → PricePredictionModel.calculate_confidence pc = "low") ∧
    PricePredictionModel.calculate_confidence 5 = "medium" ∧
    PricePredictionModel.calculate_confidence 2 = "high" ∧
    PricePredictionModel.calculate_confidence 0 = "high" := by
  refine ⟨?_, by decide, by decide, by decide⟩
  intro pc h
  simp [PricePredictionModel.calculate_confidence, h]

/-- C3 witness: the strictly-greater-than-5 branch at `percent_change = -6`. -/
theorem C3_confidence_boundaries_witness :
    PricePredictionModel.calculate_confidence (-6) = "low" :=
  C3_confidence_boundaries.1 (-6) (by norm_num)

/-- A record whose bid and ask volumes are both zero (the zero-denominator
imbalance case). -/
def zeroVolumeRecord : OrderBookRecord :=
  { timestamp := 1, price := 100, volume := 3, bid_price := 99,
    ask_price := 101, bid_volume := 0, ask_volume := 0 }

/-- A well-formed record. -/
def normalRecord : OrderBookRecord :=
  { timestamp := 0, price := 100, volume := 3, bid_price := 99,
    ask_price := 101, bid_volume := 2, ask_volume := 2 }

/-- C4: the claim states the imbalance of a zero-volume record is
policy-defined and the remaining records still get extracted.  The code has
no guard: the division raises `ZeroDivisionError`, the loop dies, and the
outer handler returns `None`, aborting extraction of every record — here a
batch with two perfectly good records yields nothing. -/
theorem C4_zero_volume_aborts_extraction :
    parseRecord zeroVolumeRecord = none ∧
    parseRecord normalRecord ≠ none ∧
    PricePredictionModel.fetch_training_data
      [normalRecord, zeroVolumeRecord, normalRecord] = none := by
  refine ⟨by simp [parseRecord, zeroVolumeRecord],
          by simp [parseRecord, normalRecord], ?_⟩
  simp [PricePredictionModel.fetch_training_data, parseRecord, normalRecord,
    zeroVolumeRecord, List.mapM, List.mapM.loop]

/-- Engine-failure path of `train`: once the row-count check passes, the
scaler has already been re-fitted by `prepare_data` (line 118, before the
`try` at line 126), so an engine `fit` failure returns `False` with the store
untouched but the scaler freshly fitted on the fetched data. -/
theorem train_engine_failure_spec
    (st : ModelState) (store : Store) (raw : List OrderBookRecord)
    (now venue symbol : String) (df : List FeatureRow)
    (hf : PricePredictionModel.fetch_training_data raw = some df)
    (hlen : ¬ df.length < st.sequence_length + 10) :
    PricePredictionModel.train st store raw none now venue symbol
      = (false, { st with scaler := some (fitParams (df.map FeatureRow.toVec)) },
         store) := by
  unfold PricePredictionModel.train
  simp only [hf]
  rw [if_neg hlen]
  rfl

/-- Folding `min` over a constant list. -/
theorem foldl_min_replicate (q : ℚ) :
    ∀ (n : ℕ) (a : ℚ),
      (List.replicate n q).foldl min a = if n = 0 then a else min a q := by
  intro n
  induction n with
  | zero => simp
  | succ m ih =>
    intro a
    rw [List.replicate_succ, List.foldl_cons, ih]
    rcases m with _ | m
    · simp
    · simp [min_assoc]

/-- Folding `max` over a constant list. -/
theorem foldl_max_replicate (q : ℚ) :
    ∀ (n : ℕ) (a : ℚ),
      (List.replicate n q).foldl max a = if n = 0 then a else max a q := by
  intro n
  induction n with
  | zero => simp
  | succ m ih =>
    intro a
    rw [List.replicate_succ, List.foldl_cons, ih]
    rcases m with _ | m
    · simp
    · simp [max_assoc]

/-- Minimum of a nonempty constant list. -/
theorem listMin_replicate (n : ℕ) (hn : n ≠ 0) (q : ℚ) :
    listMin (List.replicate n q) = q := by
  obtain ⟨m, rfl⟩ := Nat.exists_eq_succ_of_ne_zero hn
  rw [List.replicate_succ]
  show (List.replicate m q).foldl min q = q
  rw [foldl_min_replicate]
  rcases m with _ | m <;> simp

/-- Maximum of a nonempty constant list. -/
theorem listMax_replicate (n : ℕ) (hn : n ≠ 0) (q : ℚ) :
    listMax (List.replicate n q) = q := by
  obtain ⟨m, rfl⟩ := Nat.exists_eq_succ_of_ne_zero hn
  rw [List.replicate_succ]
  show (List.replicate m q).foldl max q = q
  rw [foldl_max_replicate]
  rcases m with _ | m <;> simp

/-- Scaler parameters fitted on a constant matrix: every feature collapses to
`(v, v)`. -/
theorem fitParams_replicate (n : ℕ) (hn : n ≠ 0) (row : List ℚ) :
    fitParams (List.replicate n row) =
      [(row.getD 0 0, row.getD 0 0), (row.getD 1 0, row.getD 1 0),
       (row.getD 2 0, row.getD 2 0), (row.getD 3 0, row.getD 3 0),
       (row.getD 4 0, row.getD 4 0)] := by
  have hc : ∀ j, column (List.replicate n row) j
      = List.replicate n (row.getD j 0) := by
    intro j
    simp [column, List.map_replicate]
  rw [fitParams, show List.range 5 = [0, 1, 2, 3, 4] from rfl]
  simp [hc, listMin_replicate n hn, listMax_replicate n hn]

/-- Mapping a parser that succeeds on `r` over a constant batch. -/
theorem mapM_parseRecord_replicate (r : OrderBookRecord) (f : FeatureRow)
    (h : parseRecord r = some f) :
    ∀ n, (List.replicate n r).mapM parseRecord = some (List.replicate n f) := by
  intro n
  induction n with
  | zero => rfl
  | succ m ih =>
    rw [List.replicate_succ, List.replicate_succ, List.mapM_cons, h, ih]
    rfl

/-- The feature row derived from `normalRecord`. -/
def fNormal : FeatureRow :=
  { price := 100, volume := 3, bid_ask_spread := 2, mid_price := 100,
    imbalance := 1/2 }

theorem parse_normalRecord : parseRecord normalRecord = some fNormal := by
  norm_num [parseRecord, normalRecord, fNormal]

/-- A batch of 70 identical well-formed records: enough rows for the `sequence_length
+ 10 = 70` training threshold. -/
def rawC2 : List OrderBookRecord := List.replicate 70 normalRecord

/-- The feature rows `fetch_training_data` derives from `rawC2`. -/
def dfC2 : List FeatureRow := List.replicate 70 fNormal

theorem fetchC2 :
    PricePredictionModel.fetch_training_data rawC2 = some dfC2 := by
  unfold PricePredictionModel.fetch_training_data rawC2 dfC2
  rw [if_neg (by simp), mapM_parseRecord_replicate _ _ parse_normalRecord]

/-- A model whose scaler was fitted earlier (on data scaled to the unit
range), about to be retrained. -/
def stC2 : ModelState :=
  { scaler := some [(0,1), (0,1), (0,1), (0,1), (0,1)], sequence_length := 60 }

def storeC2 : Store := { vals := [], ttls := [] }

theorem fitParamsC2 :
    fitParams (dfC2.map FeatureRow.toVec)
      = [(100,100), (3,3), (2,2), (100,100), (1/2,1/2)] := by
  have hmap : dfC2.map FeatureRow.toVec
      = List.replicate 70 ([100, 3, 2, 100, 1/2] : List ℚ) := by
    simp [dfC2, List.map_replicate, fNormal, FeatureRow.toVec]
  rw [hmap, fitParams_replicate 70 (by decide)]
  rfl

/-- C2 counterexample: a train call whose fetched data passes the row-count
check (70 rows = sequence_length + 10) and whose engine `fit` raises.  It
returns failure and writes nothing, but the scaler state after the call
differs from the scaler state before it — `prepare_data` re-fitted it before
the engine ran.  The claim's "the fitted ScalerState is unchanged from before
the call" is therefore false. -/
theorem C2_counterexample_scaler_changed :
    PricePredictionModel.train stC2 storeC2 rawC2 none "t" "BINANCE" "BTC-USDT"
      = (false, { stC2 with scaler := some (fitParams (dfC2.map FeatureRow.toVec)) },
         storeC2) ∧
    some (fitParams (dfC2.map FeatureRow.toVec)) ≠ stC2.scaler := by
  constructor
  · exact train_engine_failure_spec stC2 storeC2 rawC2 "t" "BINANCE" "BTC-USDT"
      dfC2 fetchC2 (by simp [dfC2, stC2])
  · rw [fitParamsC2]
    simp only [stC2, ne_eq, Option.some_inj]
    intro h
    have := List.head_eq_of_cons_eq h
    rw [Prod.mk.injEq] at this
    norm_num at this

/-- C2 (amended): when the fetched data passes the row-count check and the
delegated engine fit raises, `train` returns a failure result and persists no
TrainingMetrics key (the store is unchanged), but the model is NOT left in
its prior state: the ScalerState has been re-fitted on the fetched feature
matrix before the engine call. -/
theorem C2_engine_failure_refits_scaler
    (st : ModelState) (store : Store) (raw : List OrderBookRecord)
    (now venue symbol : String) (df : List FeatureRow)
    (hf : PricePredictionModel.fetch_training_data raw = some df)
    (hlen : ¬ df.length < st.sequence_length + 10) :
    PricePredictionModel.train st store raw none now venue symbol
      = (false, { st with scaler := some (fitParams (df.map FeatureRow.toVec)) },
         store) :=
  train_engine_failure_spec st store raw now venue symbol df hf hlen

/-- C2 witness: the amended statement at the concrete 70-row input. -/
theorem C2_engine_failure_refits_scaler_witness :
    PricePredictionModel.train stC2 storeC2 rawC2 none "t" "BINANCE" "BTC-USDT"
      = (false, { stC2 with scaler := some (fitParams (dfC2.map FeatureRow.toVec)) },
         storeC2) :=
  C2_engine_failure_refits_scaler stC2 storeC2 rawC2 "t" "BINANCE" "BTC-USDT"
    dfC2 fetchC2 (by simp [dfC2, stC2])

/-- C5: for a scaled matrix of length L and sequence_length S with L > S, the
windowing loop produces exactly L − S (input, target) pairs; pair i (0-based,
ascending) has input rows [i, i+S) of the matrix and target row (i+S)'s
column 0 (the price column). -/
theorem C5_windowing_count_and_alignment (S : ℕ) (scaled : List (List ℚ))
    (h : S < scaled.length) :
    (makeSequences S scaled).1.length = scaled.length - S ∧
    (makeSequences S scaled).2.length = scaled.length - S ∧
    ∀ i, i < scaled.length - S →
      (makeSequences S scaled).1.getD i [] = (scaled.drop i).take S ∧
      (makeSequences S scaled).2.getD i 0 = (scaled.getD (i + S) []).getD 0 0 := by
  refine ⟨by simp [makeSequences], by simp [makeSequences], ?_⟩
  intro i hi
  constructor
  · rw [List.getD_eq_getElem?_getD]
    simp only [makeSequences, List.getElem?_map]
    rw [List.getElem?_range' _ _ hi]
    simp only [Option.map_some']
    have hsub : S + 1 * i - S = i := by omega
    rw [hsub]
    rfl
  · rw [List.getD_eq_getElem?_getD]
    simp only [makeSequences, List.getElem?_map]
    rw [List.getElem?_range' _ _ hi]
    simp only [Option.map_some']
    have hadd : S + 1 * i = i + S := by omega
    rw [hadd]
    rfl

/-- C5 witness: S = 1 on a 2-row matrix gives one window, input the first
row, target the second row's price. -/
theorem C5_windowing_count_and_alignment_witness :
    (makeSequences 1 [[3], [7]]).1.length = 1 ∧
    (makeSequences 1 [[3], [7]]).1.getD 0 [] = [[3]] ∧
    (makeSequences 1 [[3], [7]]).2.getD 0 0 = 7 := by
  have h := C5_windowing_count_and_alignment 1 [[3], [7]] (by decide)
  refine ⟨h.1, ?_, ?_⟩
  · have h2 := (h.2.2 0 (by decide)).1
    simpa using h2
  · have h3 := (h.2.2 0 (by decide)).2
    simpa using h3

/-- C6: when the fetched history yields fewer than sequence_length + 10
feature rows — including no data at all — `train` returns failure, writes no
TrainingMetrics key, and leaves the model state and store exactly as they
were. -/
theorem C6_insufficient_data_train_is_noop
    (st : ModelState) (store : Store) (raw : List OrderBookRecord)
    (fitOutcome : Option (ℚ × ℚ)) (now venue symbol : String)
    (h : ∀ df, PricePredictionModel.fetch_training_data raw = some df →
      df.length < st.sequence_length + 10) :
    PricePredictionModel.train st store raw fitOutcome now venue symbol
      = (false, st, store) := by
  unfold PricePredictionModel.train
  split
  · rfl
  · rename_i df hf
    rw [if_pos (h df hf)]

/-- C6 witness: training with no data at all. -/
theorem C6_insufficient_data_train_is_noop_witness :
    PricePredictionModel.train { scaler := none, sequence_length := 60 }
      { vals := [], ttls := [] } [] none "t" "BINANCE" "BTC-USDT"
      = (false, { scaler := none, sequence_length := 60 },
         { vals := [], ttls := [] }) :=
  C6_insufficient_data_train_is_noop
    { scaler := none, sequence_length := 60 } { vals := [], ttls := [] }
    [] none "t" "BINANCE" "BTC-USDT"
    (fun df hdf => by simp [PricePredictionModel.fetch_training_data] at hdf)

/-- C7: when fewer than sequence_length recent feature rows are available —
including no data at all — `predict_next` returns `none` and writes no
Prediction key (the store is untouched). -/
theorem C7_insufficient_data_predict_is_noop
    (st : ModelState) (store : Store) (raw : List OrderBookRecord)
    (engineOut : ℚ) (now venue symbol : String) (th : ℕ)
    (h : ∀ df, PricePredictionModel.fetch_training_data raw = some df →
      df.length < st.sequence_length) :
    PricePredictionModel.predict_next st store raw engineOut now venue symbol th
      = (none, store) := by
  unfold PricePredictionModel.predict_next
  split
  · rfl
  · rename_i df hf
    rw [if_pos (h df hf)]

/-- C7 witness: predicting with no data at all. -/
theorem C7_insufficient_data_predict_is_noop_witness :
    PricePredictionModel.predict_next { scaler := none, sequence_length := 60 }
      { vals := [], ttls := [] } [] 0 "t" "BINANCE" "BTC-USDT" 5
      = (none, { vals := [], ttls := [] }) :=
  C7_insufficient_data_predict_is_noop
    { scaler := none, sequence_length := 60 } { vals := [], ttls := [] }
    [] 0 "t" "BINANCE" "BTC-USDT" 5
    (fun df hdf => by simp [PricePredictionModel.fetch_training_data] at hdf)

/-- C8: every successful `predict_next` satisfies the exact identities
price_change = predicted_price − current_price and percent_change =
100 · price_change / current_price, with current_price the price of the last
fetched feature row — whatever the engine output was. -/
theorem C8_prediction_arithmetic_identities
    (st : ModelState) (store : Store) (raw : List OrderBookRecord)
    (engineOut : ℚ) (now venue symbol : String) (th : ℕ)
    (p : Prediction) (s2 : Store)
    (hp : PricePredictionModel.predict_next st store raw engineOut now venue symbol th
        = (some p, s2)) :
    p.price_change = p.predicted_price - p.current_price ∧
    p.percent_change = 100 * p.price_change / p.current_price ∧
    ∃ df lastRow, PricePredictionModel.fetch_training_data raw = some df ∧
      df.getLast? = some lastRow ∧ p.current_price = lastRow.price := by
  obtain ⟨recent, ps, lastRow, hf, hlen, hsc, hlast, hpEq, hs2⟩ :=
    predict_next_success_spec st store raw engineOut now venue symbol th p s2 hp
  subst hpEq
  refine ⟨rfl, ?_, recent, lastRow, hf, getLast?_of_drop _ _ _ hlast, rfl⟩
  dsimp only
  ring

/-- C9: every successful `predict_next` persists the prediction under the
single lowercased key `ml:predictions:(venue):(symbol)`, sets that key's
time-to-live to exactly 60 · time_horizon_minutes seconds, and touches no
other key. -/
theorem C9_prediction_key_and_ttl
    (st : ModelState) (store : Store) (raw : List OrderBookRecord)
    (engineOut : ℚ) (now venue symbol : String) (th : ℕ)
    (p : Prediction) (s2 : Store)
    (hp : PricePredictionModel.predict_next st store raw engineOut now venue symbol th
        = (some p, s2)) :
    s2.get ("ml:predictions:" ++ venue.toLower ++ ":" ++ symbol.toLower)
      = some (StoreVal.pred p) ∧
    s2.ttl ("ml:predictions:" ++ venue.toLower ++ ":" ++ symbol.toLower)
      = some (60 * th) ∧
    ∀ k, k ≠ "ml:predictions:" ++ venue.toLower ++ ":" ++ symbol.toLower →
      s2.get k = store.get k ∧ s2.ttl k = store.ttl k := by
  obtain ⟨recent, ps, lastRow, hf, hlen, hsc, hlast, hpEq, hs2⟩ :=
    predict_next_success_spec st store raw engineOut now venue symbol th p s2 hp
  subst hs2
  refine ⟨?_, ?_, ?_⟩
  · rw [Store.get_expire, Store.get_set_self]
  · rw [Store.ttl_expire_self]
  · intro k hk
    exact ⟨by rw [Store.get_expire, Store.get_set_other _ _ _ _ hk],
           by rw [Store.ttl_expire_other _ _ _ _ hk, Store.ttl_set_other _ _ _ _ hk]⟩

/-- C10: the Prediction record a successful `predict_next` returns is exactly
the record persisted under the prediction key — caller and store reader
observe the same values. -/
theorem C10_returned_prediction_equals_persisted
    (st : ModelState) (store : Store) (raw : List OrderBookRecord)
    (engineOut : ℚ) (now venue symbol : String) (th : ℕ)
    (p : Prediction) (s2 : Store)
    (hp : PricePredictionModel.predict_next st store raw engineOut now venue symbol th
        = (some p, s2)) :
    s2.get ("ml:predictions:" ++ venue.toLower ++ ":" ++ symbol.toLower)
      = some (StoreVal.pred p) := by
  obtain ⟨recent, ps, lastRow, hf, hlen, hsc, hlast, hpEq, hs2⟩ :=
    predict_next_success_spec st store raw engineOut now venue symbol th p s2 hp
  subst hs2
  rw [Store.get_expire, Store.get_set_self]

/-!  A concrete successful prediction run, used by the witnesses of C8-C10:
sequence_length 1, a fitted scaler whose price range is (0, 8), one fetched
record of price 4, engine output 1 (scaled), horizon 5 minutes.  The
predicted price is 1 · (8 − 0) + 0 = 8, price_change 4, percent_change 100,
confidence low. -/

def rW : OrderBookRecord :=
  { timestamp := 0, price := 4, volume := 1, bid_price := 4, ask_price := 4,
    bid_volume := 1, ask_volume := 1 }

def stW : ModelState :=
  { scaler := some [(0,8), (0,1), (0,1), (0,1), (0,1)], sequence_length := 1 }

def storeW : Store := { vals := [], ttls := [] }

def pkeyW : String := "ml:predictions:" ++ "V".toLower ++ ":" ++ "S".toLower

def pW : Prediction :=
  { venue := "V", symbol := "S", current_price := 4, predicted_price := 8,
    price_change := 4, percent_change := 100, prediction_time := "T",
    time_horizon_minutes := 5, confidence := "low" }

def s2W : Store :=
  { vals := [(pkeyW, StoreVal.pred pW)], ttls := [(pkeyW, 300)] }

/-- Evaluation of the concrete run. -/
theorem predictW_eval :
    PricePredictionModel.predict_next stW storeW [rW] 1 "T" "V" "S" 5
      = (some pW, s2W) := by
  norm_num [PricePredictionModel.predict_next, PricePredictionModel.fetch_training_data,
    PricePredictionModel.calculate_confidence, parseRecord, inverseTransformPrice,
    rW, stW, storeW, pW, s2W, pkeyW, Store.set, Store.expire,
    List.mapM, List.mapM.loop, FeatureRow.toVec, scaleRow, scaleVal]

/-- C8 witness: the arithmetic identities at the concrete run. -/
theorem C8_prediction_arithmetic_identities_witness :
    pW.price_change = pW.predicted_price - pW.current_price ∧
    pW.percent_change = 100 * pW.price_change / pW.current_price ∧
    ∃ df lastRow, PricePredictionModel.fetch_training_data [rW] = some df ∧
      df.getLast? = some lastRow ∧ pW.current_price = lastRow.price :=
  C8_prediction_arithmetic_identities stW storeW [rW] 1 "T" "V" "S" 5 pW s2W
    predictW_eval

/-- C9 witness: key contents and time-to-live at the concrete run
(60 · 5 = 300 seconds). -/
theorem C9_prediction_key_and_ttl_witness :
    s2W.get pkeyW = some (StoreVal.pred pW) ∧ s2W.ttl pkeyW = some 300 :=
  ⟨(C9_prediction_key_and_ttl stW storeW [rW] 1 "T" "V" "S" 5 pW s2W
      predictW_eval).1,
   (C9_prediction_key_and_ttl stW storeW [rW] 1 "T" "V" "S" 5 pW s2W
      predictW_eval).2.1⟩

/-- C10 witness: the stored value at the concrete run is the returned
record. -/
theorem C10_returned_prediction_equals_persisted_witness :
    s2W.get pkeyW = some (StoreVal.pred pW) :=
  C10_returned_prediction_equals_persisted stW storeW [rW] 1 "T" "V" "S" 5 pW s2W
    predictW_eval
